import Mathlib

/-!
Shallow embedding of the confetti animation core of
`simontreny/reanimated-vs-skia-benchmark` (file `src/ConfettiSkia.tsx`).

The numeric code is embedded over an arbitrary linear ordered field `K`
(instantiated at `ℚ` for the decidable configuration/generation claims and
at `ℝ` where the source uses `Math.PI`, `Math.sin`, `Math.cos`).
Decimal literals of the source are written as exact fractions
(for example `0.3` becomes `3/10`).
-/

namespace ConfettiBench

variable {K : Type*} [LinearOrderedField K]

/-- The full configuration record `ConfettiSkiaConfig` of the source.
Images are `require(...)` asset handles in the source; they are modelled as
numeric asset identifiers. -/
structure ConfettiSkiaConfig (K : Type*) where
  colors : List String
  images : List Nat
  count : Nat
  delayRange : K × K
  xSpawnRange : K × K
  ySpawnRange : K × K
  ascendingDurationRange : K × K
  ascendingXOffsetRange : K × K
  hoveringDurationRange : K × K
  descendingDurationRange : K × K
  deriving DecidableEq

/-- The source's `defaultConfig` constant (lines 46-62 of `ConfettiSkia.tsx`). -/
def defaultConfig : ConfettiSkiaConfig K where
  colors := ["#22e39e", "#ed4e4e", "#fea134", "#ff8fd8", "#5c59f3"]
  images := [1, 2, 3, 4]
  count := 50
  delayRange := (0, 0)
  xSpawnRange := (4/10, 6/10)
  ySpawnRange := (5/10, 5/10)
  ascendingDurationRange := (500, 600)
  ascendingXOffsetRange := (-200, 200)
  hoveringDurationRange := (200, 200)
  descendingDurationRange := (2000, 6000)

/-- The caller-supplied `Partial<ConfettiSkiaConfig>`: every field optional. -/
structure PartialConfettiSkiaConfig (K : Type*) where
  colors : Option (List String) := none
  images : Option (List Nat) := none
  count : Option Nat := none
  delayRange : Option (K × K) := none
  xSpawnRange : Option (K × K) := none
  ySpawnRange : Option (K × K) := none
  ascendingDurationRange : Option (K × K) := none
  ascendingXOffsetRange : Option (K × K) := none
  hoveringDurationRange : Option (K × K) := none
  descendingDurationRange : Option (K × K) := none
  deriving DecidableEq

/-- The object built by line 69 of the source,
`const resolvedConfig = \x7b...defaultConfig, config\x7d;`:
it spreads `defaultConfig` and then adds the caller's partial object under the
single property name `config` — it does NOT spread the caller's fields.  Every
configuration field read afterwards (`count`, the duration ranges, the
palettes) therefore comes from `defaultConfig`. -/
structure ResolvedConfig (K : Type*) extends ConfettiSkiaConfig K where
  config : PartialConfettiSkiaConfig K

/-- The resolution performed by the source component `ConfettiSkia`
(line 69): keep all of `defaultConfig`, attach the caller's object as an
extra `config` property. -/
def resolvedConfig (config : PartialConfettiSkiaConfig K) : ResolvedConfig K :=
  { toConfettiSkiaConfig := defaultConfig, config := config }

/-- Modelled from the spec: the resolution the spec describes — each
field the caller supplied is taken from the caller's value, and the
documented default is used only for fields the caller omitted.  This is the
comparison point for the merge behaviour; the source's actual computation is
`resolvedConfig` above. -/
def specResolvedConfig (c : PartialConfettiSkiaConfig K) : ConfettiSkiaConfig K where
  colors := c.colors.getD (defaultConfig (K := K)).colors
  images := c.images.getD (defaultConfig (K := K)).images
  count := c.count.getD (defaultConfig (K := K)).count
  delayRange := c.delayRange.getD (defaultConfig (K := K)).delayRange
  xSpawnRange := c.xSpawnRange.getD (defaultConfig (K := K)).xSpawnRange
  ySpawnRange := c.ySpawnRange.getD (defaultConfig (K := K)).ySpawnRange
  ascendingDurationRange := c.ascendingDurationRange.getD (defaultConfig (K := K)).ascendingDurationRange
  ascendingXOffsetRange := c.ascendingXOffsetRange.getD (defaultConfig (K := K)).ascendingXOffsetRange
  hoveringDurationRange := c.hoveringDurationRange.getD (defaultConfig (K := K)).hoveringDurationRange
  descendingDurationRange := c.descendingDurationRange.getD (defaultConfig (K := K)).descendingDurationRange

/-- The source's `totalDuration` (lines 73-76): the sum of the UPPER bounds
of the ascending, hovering and descending duration ranges.  The delay range
does not contribute. -/
def totalDuration (config : ConfettiSkiaConfig K) : K :=
  config.ascendingDurationRange.2 + config.hoveringDurationRange.2 +
    config.descendingDurationRange.2

/-- One particle's immutable animation parameters, the record returned by
`getAnimationPropsForConfetti`.  `color` and `image` are `Option`s because
lodash `sample` returns `undefined` on an empty list (the source's
non-null assertion `!` is a type-level cast only). -/
structure AnimationProps (K : Type*) where
  delay : K
  startX : K
  startY : K
  ascendingDuration : K
  ascendingXOffset : K
  ascendingYTarget : K
  hoveringDuration : K
  hoveringAmplitude : K
  descendingDuration : K
  descendingSpeedX : K
  descendingSpeedY : K
  descendingRandomFactor : K
  rotationVelocity : K
  scale : K
  color : Option String
  image : Option Nat
  deriving DecidableEq

/-- One unit-interval draw per random call made by
`getAnimationPropsForConfetti`, plus the palette picks of lodash `sample`.
This models the random source explicitly. -/
structure RandomDraws (K : Type*) where
  delayU : K
  startXU : K
  startYU : K
  ascendingDurationU : K
  ascendingXOffsetU : K
  ascendingYTargetU : K
  hoveringDurationU : K
  hoveringAmplitudeU : K
  descendingDurationU : K
  descendingSpeedXU : K
  descendingSpeedYU : K
  descendingRandomFactorU : K
  rotationVelocityU : K
  colorPick : Nat
  imagePick : Nat
  deriving DecidableEq

/-- The source's `randomInRange(range) = random(range[0], range[1], true)`.
lodash `random(lower, upper, true)` swaps the bounds when `lower > upper`
and returns a uniform float between the swapped bounds; it is modelled by an
explicit draw `u` (a uniform value in `[0,1]`) mapped affinely onto the
swapped range. -/
def randomInRange (u : K) (r : K × K) : K :=
  min r.1 r.2 + u * (max r.1 r.2 - min r.1 r.2)

/-- lodash `sample`: a uniform pick from a list, `undefined` (here `none`)
on an empty list.  The pick index is supplied by the random source. -/
def sample (i : Nat) (l : List α) : Option α :=
  l.get? (i % l.length)

/-- The source's `getAnimationPropsForConfetti` (lines 271-294), with the
random source made explicit.  Note: it performs no validation of the
configuration whatsoever. -/
def getAnimationPropsForConfetti (containerWidth containerHeight : K)
    (config : ConfettiSkiaConfig K) (d : RandomDraws K) : AnimationProps K where
  delay := randomInRange d.delayU config.delayRange
  startX := randomInRange d.startXU config.xSpawnRange * containerWidth
  startY := randomInRange d.startYU config.ySpawnRange * containerHeight
  ascendingDuration := randomInRange d.ascendingDurationU config.ascendingDurationRange
  ascendingXOffset := randomInRange d.ascendingXOffsetU config.ascendingXOffsetRange
  ascendingYTarget := randomInRange d.ascendingYTargetU (-(3/10), 2/10) * containerHeight
  hoveringDuration := randomInRange d.hoveringDurationU config.hoveringDurationRange
  hoveringAmplitude := randomInRange d.hoveringAmplitudeU (2, 4)
  descendingDuration := randomInRange d.descendingDurationU config.descendingDurationRange
  descendingSpeedX := randomInRange d.descendingSpeedXU (-30, 30) / 1000
  descendingSpeedY := randomInRange d.descendingSpeedYU (150, 200) / 1000
  descendingRandomFactor := randomInRange d.descendingRandomFactorU (-1, 1)
  rotationVelocity := randomInRange d.rotationVelocityU (40, 360)
  scale := 9/10
  color := sample d.colorPick config.colors
  image := sample d.imagePick config.images

/-- The source's `easeInOutCubic` (lines 138-140). -/
def easeInOutCubic (x : K) : K :=
  if x < 1/2 then 4 * x * x * x else 1 - (-2 * x + 2) ^ 3 / 2

/-- The source's `easeOutQuart` (lines 141-143). -/
def easeOutQuart (x : K) : K :=
  1 - (1 - x) ^ 4

/-- The source's `fastInterpolate` (lines 144-154): clamp the normalized
position of `x` in the input range to `[0,1]`, then map it linearly onto the
output range.  This is the spec's `clampedLerp`. -/
def fastInterpolate (x : K) (inputRange outputRange : K × K) : K :=
  let t := min (max ((x - inputRange.1) / (inputRange.2 - inputRange.1)) 0) 1
  outputRange.1 + t * (outputRange.2 - outputRange.1)

/-- Ascending phase elapsed time (line 157): `max(t - delay, 0)`. -/
def ascendingTime (p : AnimationProps K) (t : K) : K :=
  max (t - p.delay) 0

/-- Ascending phase completion fraction (line 158), clamped at 1. -/
def ascendingPercent (p : AnimationProps K) (t : K) : K :=
  min (ascendingTime p t / p.ascendingDuration) 1

/-- Eased ascending progress (line 159). -/
def ascendingT (p : AnimationProps K) (t : K) : K :=
  easeInOutCubic (ascendingPercent p t)

/-- Ascending x contribution (line 160). -/
def ascendingX (p : AnimationProps K) (t : K) : K :=
  p.startX + ascendingT p t * p.ascendingXOffset

/-- Ascending y contribution (line 161). -/
def ascendingY (p : AnimationProps K) (t : K) : K :=
  p.startY + ascendingT p t * (p.ascendingYTarget - p.startY)

/-- Ascending opacity contribution (lines 162-166): fade-in over the
`[0.3, 0.8]` window of the ascending fraction. -/
def ascendingOpacity (p : AnimationProps K) (t : K) : K :=
  fastInterpolate (ascendingPercent p t) (3/10, 8/10) (0, 1)

/-- Hovering phase elapsed time (line 169): `max(t - delay - ascendingDuration, 0)`,
never clamped from above. -/
def hoveringTime (p : AnimationProps K) (t : K) : K :=
  max (t - p.delay - p.ascendingDuration) 0

/-- Hovering phase completion fraction (line 170), clamped at 1. -/
def hoveringPercent (p : AnimationProps K) (t : K) : K :=
  min (hoveringTime p t / p.hoveringDuration) 1

/-- Eased hovering progress with end-of-phase decay (lines 171-173). -/
def hoveringT (p : AnimationProps K) (t : K) : K :=
  easeOutQuart (hoveringPercent p t) *
    fastInterpolate (hoveringPercent p t) (8/10, 1) (1, 7/10)

/-- Hovering y contribution (line 174). -/
def hoveringY (p : AnimationProps K) (t : K) : K :=
  -p.hoveringAmplitude * hoveringT p t

/-- Descending phase elapsed time (lines 177-180), never clamped from above. -/
def descendingTime (p : AnimationProps K) (t : K) : K :=
  max (t - p.delay - p.ascendingDuration - p.hoveringDuration) 0

/-- Descending phase completion fraction (line 181), clamped at 1. -/
def descendingPercent (p : AnimationProps K) (t : K) : K :=
  min (descendingTime p t / p.descendingDuration) 1

/-- Descending speed ramp (lines 182-186), driven by the UNclamped elapsed
time, not the fraction. -/
def descendingSpeedFactor (p : AnimationProps K) (t : K) : K :=
  fastInterpolate (descendingTime p t) (0, 1000) (7/10, 1)

/-- Descending opacity contribution (lines 195-199): fade-out over the
`[0.8, 1]` window of the descending fraction. -/
def descendingOpacity (p : AnimationProps K) (t : K) : K :=
  fastInterpolate (descendingPercent p t) (8/10, 1) (1, 0)

/-- Descending rotational drift angle (lines 187-189), driven by the
unclamped descending elapsed time. -/
noncomputable def descendingRotateAngle (p : AnimationProps ℝ) (t : ℝ) : ℝ :=
  p.descendingRandomFactor +
    descendingTime p t / 1000 * (2 * Real.pi) * p.descendingRandomFactor

/-- Descending x contribution (lines 190-191). -/
noncomputable def descendingX (p : AnimationProps ℝ) (t : ℝ) : ℝ :=
  descendingTime p t * p.descendingSpeedX +
    Real.sin (descendingRotateAngle p t) * 10

/-- Descending y contribution (lines 192-194). -/
noncomputable def descendingY (p : AnimationProps ℝ) (t : ℝ) : ℝ :=
  descendingTime p t * descendingSpeedFactor p t * p.descendingSpeedY +
    Real.cos (descendingRotateAngle p t) * 10

/-- Rotation (line 201): driven by the unclamped hovering elapsed time. -/
noncomputable def rotate (p : AnimationProps ℝ) (t : ℝ) : ℝ :=
  hoveringTime p t / 1000 * p.rotationVelocity * Real.pi / 180

/-- The instantaneous pose of one particle: the transform entries assembled
on lines 202-208 plus the opacity of line 212. -/
structure Pose (K : Type*) where
  translateX : K
  translateY : K
  rotateRadians : K
  scale : K
  opacity : K

/-- The pose evaluator: the body of the `useComputedValue` closure of the
source (lines 117-214), as a pure function of the particle parameters and
the looped time. -/
noncomputable def evaluate (p : AnimationProps ℝ) (t : ℝ) : Pose ℝ where
  translateX := ascendingX p t + descendingX p t
  translateY := ascendingY p t + hoveringY p t + descendingY p t
  rotateRadians := rotate p t
  scale := p.scale
  opacity := ascendingOpacity p t * descendingOpacity p t

/-- A draw of the modelled random source: a value in the unit interval. -/
def UnitDraw (u : K) : Prop := 0 ≤ u ∧ u ≤ 1

theorem randomInRange_mem (u : K) (r : K × K) (hu : UnitDraw u) :
    min r.1 r.2 ≤ randomInRange u r ∧ randomInRange u r ≤ max r.1 r.2 := by
  obtain ⟨h0, h1⟩ := hu
  have hm : (0:K) ≤ max r.1 r.2 - min r.1 r.2 := sub_nonneg.mpr min_le_max
  unfold randomInRange
  constructor
  · have := mul_nonneg h0 hm
    linarith
  · have : u * (max r.1 r.2 - min r.1 r.2) ≤ 1 * (max r.1 r.2 - min r.1 r.2) :=
      mul_le_mul_of_nonneg_right h1 hm
    linarith

theorem fastInterpolate_clamp_mem (x : K) (ir : K × K) (a b : K) :
    min a b ≤ fastInterpolate x ir (a, b) ∧ fastInterpolate x ir (a, b) ≤ max a b := by
  have h0 : 0 ≤ min (max ((x - ir.1) / (ir.2 - ir.1)) 0) 1 :=
    le_min (le_max_right _ _) zero_le_one
  have h1 : min (max ((x - ir.1) / (ir.2 - ir.1)) 0) 1 ≤ 1 := min_le_right _ _
  unfold fastInterpolate
  dsimp only
  rcases le_total a b with hab | hab
  · rw [min_eq_left hab, max_eq_right hab]
    constructor <;> nlinarith
  · rw [min_eq_right hab, max_eq_left hab]
    constructor <;> nlinarith

theorem fastInterpolate_of_le_left (x lo hi a b : K) (hlt : lo < hi) (hx : x ≤ lo) :
    fastInterpolate x (lo, hi) (a, b) = a := by
  have hquot : (x - lo) / (hi - lo) ≤ 0 :=
    div_nonpos_of_nonpos_of_nonneg (sub_nonpos.mpr hx) (sub_pos.mpr hlt).le
  unfold fastInterpolate
  dsimp only
  rw [max_eq_right hquot, min_eq_left zero_le_one]
  ring

theorem fastInterpolate_of_ge_right (x lo hi a b : K) (hlt : lo < hi) (hx : hi ≤ x) :
    fastInterpolate x (lo, hi) (a, b) = b := by
  have hpos : (0:K) < hi - lo := sub_pos.mpr hlt
  have hquot : 1 ≤ (x - lo) / (hi - lo) := (one_le_div hpos).mpr (by linarith)
  unfold fastInterpolate
  dsimp only
  rw [min_eq_right (le_max_of_le_left hquot)]
  ring

theorem ascendingPercent_before_delay (p : AnimationProps K) (t : K)
    (ht : t ≤ p.delay) : ascendingPercent p t = 0 := by
  unfold ascendingPercent ascendingTime
  rw [max_eq_right (sub_nonpos.mpr ht), zero_div, min_eq_left zero_le_one]

theorem ascendingPercent_after (p : AnimationProps K) (t : K)
    (hdur : 0 < p.ascendingDuration) (ht : p.delay + p.ascendingDuration ≤ t) :
    ascendingPercent p t = 1 := by
  unfold ascendingPercent ascendingTime
  rw [max_eq_left (by linarith : (0:K) ≤ t - p.delay)]
  rw [min_eq_right ((one_le_div hdur).mpr (by linarith))]

theorem hoveringPercent_after (p : AnimationProps K) (t : K)
    (hdur : 0 < p.hoveringDuration)
    (ht : p.delay + p.ascendingDuration + p.hoveringDuration ≤ t) :
    hoveringPercent p t = 1 := by
  unfold hoveringPercent hoveringTime
  rw [max_eq_left (by linarith : (0:K) ≤ t - p.delay - p.ascendingDuration)]
  rw [min_eq_right ((one_le_div hdur).mpr (by linarith))]

theorem descendingPercent_after (p : AnimationProps K) (t : K)
    (hdur : 0 < p.descendingDuration)
    (ht : p.delay + p.ascendingDuration + p.hoveringDuration + p.descendingDuration ≤ t) :
    descendingPercent p t = 1 := by
  unfold descendingPercent descendingTime
  rw [max_eq_left
    (by linarith : (0:K) ≤ t - p.delay - p.ascendingDuration - p.hoveringDuration)]
  rw [min_eq_right ((one_le_div hdur).mpr (by linarith))]

theorem ascendingOpacity_before_delay (p : AnimationProps K) (t : K)
    (ht : t ≤ p.delay) : ascendingOpacity p t = 0 := by
  unfold ascendingOpacity
  rw [ascendingPercent_before_delay p t ht]
  exact fastInterpolate_of_le_left 0 (3/10) (8/10) 0 1 (by norm_num) (by norm_num)

theorem descendingOpacity_after_end (p : AnimationProps K) (t : K)
    (hdur : 0 < p.descendingDuration)
    (ht : p.delay + p.ascendingDuration + p.hoveringDuration + p.descendingDuration ≤ t) :
    descendingOpacity p t = 0 := by
  unfold descendingOpacity
  rw [descendingPercent_after p t hdur ht]
  exact fastInterpolate_of_ge_right 1 (8/10) 1 1 0 (by norm_num) le_rfl

/-! ### Concrete inputs used by counterexamples and witnesses -/

/-- A caller-supplied partial configuration that overrides `count`. -/
def callerConfig : PartialConfettiSkiaConfig ℚ := { count := some 10 }

/-- A configuration with a min > max delay range and an empty color palette
while `count = 1`. -/
def invalidConfig : ConfettiSkiaConfig ℚ :=
  { defaultConfig with delayRange := (5, 2), colors := [], count := 1 }

/-- The all-zero random source: every draw is 0 and every palette pick is 0. -/
def zeroDraws : RandomDraws ℚ where
  delayU := 0
  startXU := 0
  startYU := 0
  ascendingDurationU := 0
  ascendingXOffsetU := 0
  ascendingYTargetU := 0
  hoveringDurationU := 0
  hoveringAmplitudeU := 0
  descendingDurationU := 0
  descendingSpeedXU := 0
  descendingSpeedYU := 0
  descendingRandomFactorU := 0
  rotationVelocityU := 0
  colorPick := 0
  imagePick := 0

/-- A configuration whose duration ranges are tight and whose delay range is
the constant 100. -/
def tightDelayedConfig : ConfettiSkiaConfig ℚ :=
  { defaultConfig with
    delayRange := (100, 100)
    ascendingDurationRange := (500, 500)
    hoveringDurationRange := (200, 200)
    descendingDurationRange := (2000, 2000) }

/-! ### C1 — configuration resolution -/

/-- C1: FALSE of the code as claimed — the source resolves the configuration
with `\x7b...defaultConfig, config\x7d` (a missing spread of `config`), so a
caller-supplied `count = 10` is dropped and the resolved `count` stays at the
default 50, while the merge the spec describes (`specResolvedConfig`) would
yield 10. -/
theorem resolvedConfig_ignores_caller :
    callerConfig.count = some 10 ∧
    (resolvedConfig callerConfig).count = 50 ∧
    (specResolvedConfig callerConfig).count = 10 :=
  ⟨rfl, rfl, rfl⟩

/-! ### C4 — generation is total, never fails with InvalidConfig -/

/-- C4 counterexample: on a configuration with a `min > max` delay range, an
empty color palette and particle count 1, `getAnimationPropsForConfetti`
still returns a full parameter record (the delay is drawn from the swapped
range, the color pick is `undefined`); there is no `InvalidConfig` failure
path in the code. -/
theorem generation_total_on_invalid_config :
    invalidConfig.delayRange.2 < invalidConfig.delayRange.1 ∧
    invalidConfig.colors = [] ∧
    invalidConfig.count = 1 ∧
    (getAnimationPropsForConfetti 100 100 invalidConfig zeroDraws).delay = 2 ∧
    (getAnimationPropsForConfetti 100 100 invalidConfig zeroDraws).color = none := by
  refine ⟨by norm_num [invalidConfig, defaultConfig], rfl, rfl, ?_, rfl⟩
  show randomInRange (0:ℚ) (5, 2) = 2
  norm_num [randomInRange]

/-- C4 (amended): parameter generation never fails and performs no
validation: for every configuration (malformed ranges and empty palettes
included) it returns a `ParticleParameters` record; a range with `min > max`
is sampled over the swapped bounds, and an empty palette makes the sampled
color (resp. image) `undefined`. -/
theorem generation_never_fails (w h : ℚ) (config : ConfettiSkiaConfig ℚ)
    (d : RandomDraws ℚ) (hu : UnitDraw d.delayU) :
    min config.delayRange.1 config.delayRange.2 ≤
      (getAnimationPropsForConfetti w h config d).delay ∧
    (getAnimationPropsForConfetti w h config d).delay ≤
      max config.delayRange.1 config.delayRange.2 ∧
    (config.colors = [] → (getAnimationPropsForConfetti w h config d).color = none) ∧
    (config.images = [] → (getAnimationPropsForConfetti w h config d).image = none) := by
  refine ⟨(randomInRange_mem d.delayU config.delayRange hu).1,
    (randomInRange_mem d.delayU config.delayRange hu).2, ?_, ?_⟩
  · intro hc
    show sample d.colorPick config.colors = none
    rw [hc]
    rfl
  · intro hc
    show sample d.imagePick config.images = none
    rw [hc]
    rfl

theorem generation_never_fails_witness :
    UnitDraw zeroDraws.delayU ∧
    (min (defaultConfig (K := ℚ)).delayRange.1 (defaultConfig (K := ℚ)).delayRange.2 ≤
      (getAnimationPropsForConfetti 100 100 defaultConfig zeroDraws).delay ∧
    (getAnimationPropsForConfetti 100 100 defaultConfig zeroDraws).delay ≤
      max (defaultConfig (K := ℚ)).delayRange.1 (defaultConfig (K := ℚ)).delayRange.2 ∧
    ((defaultConfig (K := ℚ)).colors = [] →
      (getAnimationPropsForConfetti 100 100 defaultConfig zeroDraws).color = none) ∧
    ((defaultConfig (K := ℚ)).images = [] →
      (getAnimationPropsForConfetti 100 100 defaultConfig zeroDraws).image = none)) :=
  ⟨by constructor <;> norm_num [zeroDraws],
    generation_never_fails 100 100 defaultConfig zeroDraws
      (by constructor <;> norm_num [zeroDraws])⟩

/-! ### C6 — loop period versus per-particle trajectory length -/

/-- C6 counterexample: `totalDuration` sums only the three duration range
upper bounds and ignores the delay range, so with a constant delay of 100 and
tight duration ranges the generated particle's
`delay + ascendingDuration + hoveringDuration + descendingDuration = 2800`
exceeds `totalDuration = 2700`. -/
theorem cycle_bound_fails_with_delay :
    totalDuration tightDelayedConfig = 2700 ∧
    ¬ ((getAnimationPropsForConfetti 100 100 tightDelayedConfig zeroDraws).delay +
        (getAnimationPropsForConfetti 100 100 tightDelayedConfig zeroDraws).ascendingDuration +
        (getAnimationPropsForConfetti 100 100 tightDelayedConfig zeroDraws).hoveringDuration +
        (getAnimationPropsForConfetti 100 100 tightDelayedConfig zeroDraws).descendingDuration ≤
        totalDuration tightDelayedConfig) := by
  constructor
  · norm_num [totalDuration, tightDelayedConfig, defaultConfig]
  · show ¬ (randomInRange (0:ℚ) (100, 100) + randomInRange (0:ℚ) (500, 500) +
      randomInRange (0:ℚ) (200, 200) + randomInRange (0:ℚ) (2000, 2000) ≤
      totalDuration tightDelayedConfig)
    norm_num [randomInRange, totalDuration, tightDelayedConfig, defaultConfig]

/-- C6 (amended): for every configuration with valid (min ≤ max) delay and
duration ranges and every unit random source, a generated particle satisfies
`delay + ascendingDuration + hoveringDuration + descendingDuration ≤
max delayRange + totalDuration`; the claimed bound by `totalDuration` alone
holds exactly when the delay range's upper bound is 0, as in the default
configuration. -/
theorem cycle_bound_with_delay (w h : ℚ) (config : ConfettiSkiaConfig ℚ)
    (d : RandomDraws ℚ)
    (hdel : config.delayRange.1 ≤ config.delayRange.2)
    (hasc : config.ascendingDurationRange.1 ≤ config.ascendingDurationRange.2)
    (hhov : config.hoveringDurationRange.1 ≤ config.hoveringDurationRange.2)
    (hdesc : config.descendingDurationRange.1 ≤ config.descendingDurationRange.2)
    (hu1 : UnitDraw d.delayU) (hu2 : UnitDraw d.ascendingDurationU)
    (hu3 : UnitDraw d.hoveringDurationU) (hu4 : UnitDraw d.descendingDurationU) :
    (getAnimationPropsForConfetti w h config d).delay +
      (getAnimationPropsForConfetti w h config d).ascendingDuration +
      (getAnimationPropsForConfetti w h config d).hoveringDuration +
      (getAnimationPropsForConfetti w h config d).descendingDuration ≤
      config.delayRange.2 + totalDuration config := by
  have h1 := (randomInRange_mem d.delayU config.delayRange hu1).2
  have h2 := (randomInRange_mem d.ascendingDurationU config.ascendingDurationRange hu2).2
  have h3 := (randomInRange_mem d.hoveringDurationU config.hoveringDurationRange hu3).2
  have h4 := (randomInRange_mem d.descendingDurationU config.descendingDurationRange hu4).2
  rw [max_eq_right hdel] at h1
  rw [max_eq_right hasc] at h2
  rw [max_eq_right hhov] at h3
  rw [max_eq_right hdesc] at h4
  show randomInRange d.delayU config.delayRange +
      randomInRange d.ascendingDurationU config.ascendingDurationRange +
      randomInRange d.hoveringDurationU config.hoveringDurationRange +
      randomInRange d.descendingDurationU config.descendingDurationRange ≤
      config.delayRange.2 + totalDuration config
  unfold totalDuration
  linarith

theorem cycle_bound_with_delay_witness :
    ((defaultConfig (K := ℚ)).delayRange.1 ≤ (defaultConfig (K := ℚ)).delayRange.2 ∧
     (defaultConfig (K := ℚ)).ascendingDurationRange.1 ≤
       (defaultConfig (K := ℚ)).ascendingDurationRange.2 ∧
     (defaultConfig (K := ℚ)).hoveringDurationRange.1 ≤
       (defaultConfig (K := ℚ)).hoveringDurationRange.2 ∧
     (defaultConfig (K := ℚ)).descendingDurationRange.1 ≤
       (defaultConfig (K := ℚ)).descendingDurationRange.2 ∧
     UnitDraw zeroDraws.delayU ∧ UnitDraw zeroDraws.ascendingDurationU ∧
     UnitDraw zeroDraws.hoveringDurationU ∧ UnitDraw zeroDraws.descendingDurationU) ∧
    (getAnimationPropsForConfetti 100 100 defaultConfig zeroDraws).delay +
      (getAnimationPropsForConfetti 100 100 defaultConfig zeroDraws).ascendingDuration +
      (getAnimationPropsForConfetti 100 100 defaultConfig zeroDraws).hoveringDuration +
      (getAnimationPropsForConfetti 100 100 defaultConfig zeroDraws).descendingDuration ≤
      (defaultConfig (K := ℚ)).delayRange.2 + totalDuration defaultConfig :=
  ⟨⟨by norm_num [defaultConfig], by norm_num [defaultConfig], by norm_num [defaultConfig],
    by norm_num [defaultConfig], by constructor <;> norm_num [zeroDraws],
    by constructor <;> norm_num [zeroDraws], by constructor <;> norm_num [zeroDraws],
    by constructor <;> norm_num [zeroDraws]⟩,
    cycle_bound_with_delay 100 100 defaultConfig zeroDraws
      (by norm_num [defaultConfig]) (by norm_num [defaultConfig])
      (by norm_num [defaultConfig]) (by norm_num [defaultConfig])
      (by constructor <;> norm_num [zeroDraws]) (by constructor <;> norm_num [zeroDraws])
      (by constructor <;> norm_num [zeroDraws]) (by constructor <;> norm_num [zeroDraws])⟩

/-- A concrete particle with a nonzero delay, used to instantiate the
evaluator theorems. -/
noncomputable def pExample : AnimationProps ℝ where
  delay := 10
  startX := 0
  startY := 0
  ascendingDuration := 500
  ascendingXOffset := 100
  ascendingYTarget := -50
  hoveringDuration := 200
  hoveringAmplitude := 3
  descendingDuration := 2000
  descendingSpeedX := 1/100
  descendingSpeedY := 7/40
  descendingRandomFactor := 0
  rotationVelocity := 180
  scale := 9/10
  color := some "#22e39e"
  image := some 1

/-- The particle of the spec's end-to-end scenario, with the descending
drift pinned at `descendingRandomFactor = 0`. -/
noncomputable def pScenario : AnimationProps ℝ where
  delay := 0
  startX := 0
  startY := 0
  ascendingDuration := 500
  ascendingXOffset := 100
  ascendingYTarget := -50
  hoveringDuration := 200
  hoveringAmplitude := 3
  descendingDuration := 2000
  descendingSpeedX := 1/100
  descendingSpeedY := 7/40
  descendingRandomFactor := 0
  rotationVelocity := 180
  scale := 9/10
  color := some "#22e39e"
  image := some 1

/-- The scenario particle with a nonzero descending random factor. -/
noncomputable def pScenarioDrift : AnimationProps ℝ :=
  { pScenario with descendingRandomFactor := 1 }

/-! ### C7 — opacity is zero outside the particle's active window -/

/-- C7: for every particle with positive phase durations, the evaluated
opacity is exactly 0 for every time before the particle's delay and for
every time at or after the end of its descent. -/
theorem opacity_zero_outside_window (p : AnimationProps ℝ)
    (ha : 0 < p.ascendingDuration) (hh : 0 < p.hoveringDuration)
    (hd : 0 < p.descendingDuration) (t : ℝ) :
    (t < p.delay → (evaluate p t).opacity = 0) ∧
    (p.delay + p.ascendingDuration + p.hoveringDuration + p.descendingDuration ≤ t →
      (evaluate p t).opacity = 0) := by
  constructor
  · intro ht
    show ascendingOpacity p t * descendingOpacity p t = 0
    rw [ascendingOpacity_before_delay p t ht.le, zero_mul]
  · intro ht
    show ascendingOpacity p t * descendingOpacity p t = 0
    rw [descendingOpacity_after_end p t hd ht, mul_zero]

theorem opacity_zero_outside_window_witness :
    ((0:ℝ) < pExample.ascendingDuration ∧ (0:ℝ) < pExample.hoveringDuration ∧
      (0:ℝ) < pExample.descendingDuration) ∧
    ((5 < pExample.delay → (evaluate pExample 5).opacity = 0) ∧
     (pExample.delay + pExample.ascendingDuration + pExample.hoveringDuration +
        pExample.descendingDuration ≤ 5 → (evaluate pExample 5).opacity = 0)) :=
  ⟨⟨by norm_num [pExample], by norm_num [pExample], by norm_num [pExample]⟩,
    opacity_zero_outside_window pExample (by norm_num [pExample])
      (by norm_num [pExample]) (by norm_num [pExample]) 5⟩

/-! ### C10 — opacity is a product of clamped contributions in [0, 1] -/

/-- C10: for every particle with positive phase durations and every
non-negative time, the evaluated opacity is the product of the ascending and
descending contributions, each contribution lies in [0, 1], and so does the
product. -/
theorem opacity_in_unit_interval (p : AnimationProps ℝ)
    (ha : 0 < p.ascendingDuration) (hh : 0 < p.hoveringDuration)
    (hd : 0 < p.descendingDuration) (t : ℝ) (ht : 0 ≤ t) :
    (evaluate p t).opacity = ascendingOpacity p t * descendingOpacity p t ∧
    (0 ≤ ascendingOpacity p t ∧ ascendingOpacity p t ≤ 1) ∧
    (0 ≤ descendingOpacity p t ∧ descendingOpacity p t ≤ 1) ∧
    (0 ≤ (evaluate p t).opacity ∧ (evaluate p t).opacity ≤ 1) := by
  have hA : 0 ≤ ascendingOpacity p t ∧ ascendingOpacity p t ≤ 1 := by
    have hm := fastInterpolate_clamp_mem (ascendingPercent p t) ((3:ℝ)/10, 8/10) 0 1
    rw [min_eq_left zero_le_one, max_eq_right zero_le_one] at hm
    exact hm
  have hD : 0 ≤ descendingOpacity p t ∧ descendingOpacity p t ≤ 1 := by
    have hm := fastInterpolate_clamp_mem (descendingPercent p t) ((8:ℝ)/10, 1) 1 0
    rw [min_eq_right zero_le_one, max_eq_left zero_le_one] at hm
    exact hm
  have hprod : (evaluate p t).opacity = ascendingOpacity p t * descendingOpacity p t := rfl
  refine ⟨hprod, hA, hD, ?_, ?_⟩
  · rw [hprod]
    exact mul_nonneg hA.1 hD.1
  · rw [hprod]
    nlinarith [hA.1, hA.2, hD.1, hD.2]

theorem opacity_in_unit_interval_witness :
    (((0:ℝ) < pExample.ascendingDuration ∧ (0:ℝ) < pExample.hoveringDuration ∧
      (0:ℝ) < pExample.descendingDuration) ∧ (0:ℝ) ≤ 400) ∧
    ((evaluate pExample 400).opacity =
      ascendingOpacity pExample 400 * descendingOpacity pExample 400 ∧
    (0 ≤ ascendingOpacity pExample 400 ∧ ascendingOpacity pExample 400 ≤ 1) ∧
    (0 ≤ descendingOpacity pExample 400 ∧ descendingOpacity pExample 400 ≤ 1) ∧
    (0 ≤ (evaluate pExample 400).opacity ∧ (evaluate pExample 400).opacity ≤ 1)) :=
  ⟨⟨⟨by norm_num [pExample], by norm_num [pExample], by norm_num [pExample]⟩, by norm_num⟩,
    opacity_in_unit_interval pExample (by norm_num [pExample]) (by norm_num [pExample])
      (by norm_num [pExample]) 400 (by norm_num)⟩

/-! ### C2 — what actually freezes after the descent ends -/

/-- C2 counterexample: the pose is NOT constant after the descent ends.
For the explicit particle `pExample` (positive phase durations, descent over
at `t = 2710`), the poses at `t = 2710` and `t = 3710` differ: rotation is
driven by the unclamped hovering elapsed time and keeps accruing. -/
theorem pose_not_constant_after_end :
    (0 < pExample.ascendingDuration ∧ 0 < pExample.hoveringDuration ∧
      0 < pExample.descendingDuration) ∧
    pExample.delay + pExample.ascendingDuration + pExample.hoveringDuration +
      pExample.descendingDuration ≤ 2710 ∧
    pExample.delay + pExample.ascendingDuration + pExample.hoveringDuration +
      pExample.descendingDuration ≤ 3710 ∧
    evaluate pExample 2710 ≠ evaluate pExample 3710 := by
  refine ⟨⟨by norm_num [pExample], by norm_num [pExample], by norm_num [pExample]⟩,
    by norm_num [pExample], by norm_num [pExample], ?_⟩
  have hrot : (evaluate pExample 2710).rotateRadians ≠
      (evaluate pExample 3710).rotateRadians := by
    show rotate pExample 2710 ≠ rotate pExample 3710
    unfold rotate hoveringTime
    norm_num [pExample, max_def]
    intro hcontra
    have hpi := Real.pi_pos
    nlinarith [hcontra, hpi]
  exact fun h => hrot (congrArg Pose.rotateRadians h)

/-- C2 (amended): at or after the end of the descend window all three phase
completion fractions are saturated at 1 and the evaluated opacity is
constant at 0 (fully faded) and the scale is constant; but the full pose
does not freeze, because the descending x/y offsets and the rotation are
driven by the unclamped elapsed times (see the counterexample). -/
theorem fractions_saturate_after_end (p : AnimationProps ℝ)
    (ha : 0 < p.ascendingDuration) (hh : 0 < p.hoveringDuration)
    (hd : 0 < p.descendingDuration) (t : ℝ)
    (ht : p.delay + p.ascendingDuration + p.hoveringDuration +
      p.descendingDuration ≤ t) :
    ascendingPercent p t = 1 ∧ hoveringPercent p t = 1 ∧
    descendingPercent p t = 1 ∧
    (evaluate p t).opacity = 0 ∧ (evaluate p t).scale = p.scale := by
  refine ⟨ascendingPercent_after p t ha (by linarith),
    hoveringPercent_after p t hh (by linarith),
    descendingPercent_after p t hd ht, ?_, rfl⟩
  show ascendingOpacity p t * descendingOpacity p t = 0
  rw [descendingOpacity_after_end p t hd ht, mul_zero]

theorem fractions_saturate_after_end_witness :
    ((0:ℝ) < pExample.ascendingDuration ∧ (0:ℝ) < pExample.hoveringDuration ∧
      (0:ℝ) < pExample.descendingDuration ∧
      pExample.delay + pExample.ascendingDuration + pExample.hoveringDuration +
        pExample.descendingDuration ≤ 5000) ∧
    (ascendingPercent pExample 5000 = 1 ∧ hoveringPercent pExample 5000 = 1 ∧
      descendingPercent pExample 5000 = 1 ∧
      (evaluate pExample 5000).opacity = 0 ∧
      (evaluate pExample 5000).scale = pExample.scale) :=
  ⟨⟨by norm_num [pExample], by norm_num [pExample], by norm_num [pExample],
    by norm_num [pExample]⟩,
    fractions_saturate_after_end pExample (by norm_num [pExample])
      (by norm_num [pExample]) (by norm_num [pExample]) 5000 (by norm_num [pExample])⟩

/-! ### C8 — rotation formula -/

/-- C8: for every particle and every time, the evaluated rotation equals
the unclamped hovering elapsed time in seconds times `rotationVelocity`
times π/180; it is never reset or clamped per phase, so it keeps accruing
through the descending phase. -/
theorem rotation_formula (p : AnimationProps ℝ) (t : ℝ) :
    (evaluate p t).rotateRadians =
      max (t - p.delay - p.ascendingDuration) 0 / 1000 * p.rotationVelocity *
        (Real.pi / 180) := by
  show rotate p t = _
  unfold rotate hoveringTime
  ring

/-! ### C9 — clampedLerp is output-range-bounded and saturates -/

/-- C9: for every real input `x` and input range with `inLo < inHi`,
`fastInterpolate` (the spec's `clampedLerp`) stays between the two output
endpoints — also for `x` outside the input range — and a saturated input
(at or beyond either input endpoint) maps exactly to the corresponding
output endpoint. -/
theorem fastInterpolate_bounded_and_saturating (x inLo inHi outLo outHi : ℝ)
    (h : inLo < inHi) :
    min outLo outHi ≤ fastInterpolate x (inLo, inHi) (outLo, outHi) ∧
    fastInterpolate x (inLo, inHi) (outLo, outHi) ≤ max outLo outHi ∧
    (x ≤ inLo → fastInterpolate x (inLo, inHi) (outLo, outHi) = outLo) ∧
    (inHi ≤ x → fastInterpolate x (inLo, inHi) (outLo, outHi) = outHi) :=
  ⟨(fastInterpolate_clamp_mem x (inLo, inHi) outLo outHi).1,
    (fastInterpolate_clamp_mem x (inLo, inHi) outLo outHi).2,
    fun hx => fastInterpolate_of_le_left x inLo inHi outLo outHi h hx,
    fun hx => fastInterpolate_of_ge_right x inLo inHi outLo outHi h hx⟩

theorem fastInterpolate_bounded_and_saturating_witness :
    (0:ℝ) < 1 ∧
    (min (2:ℝ) 5 ≤ fastInterpolate 7 ((0:ℝ), 1) (2, 5) ∧
     fastInterpolate 7 ((0:ℝ), 1) (2, 5) ≤ max 2 5 ∧
     ((7:ℝ) ≤ 0 → fastInterpolate 7 ((0:ℝ), 1) (2, 5) = 2) ∧
     ((1:ℝ) ≤ 7 → fastInterpolate 7 ((0:ℝ), 1) (2, 5) = 5)) :=
  ⟨by norm_num, fastInterpolate_bounded_and_saturating 7 0 1 2 5 (by norm_num)⟩

/-! ### C3 — the end-to-end scenario at t = 250 -/

/-- C3 counterexample: in the spec's scenario the claimed
`translateX == 50` at `t = 250` fails as soon as the (unconstrained)
`descendingRandomFactor` is nonzero, because `descendingX` adds the drift
term `sin(descendingRotateAngle) * 10 = sin(descendingRandomFactor) * 10`
already at descend elapsed time 0: with `descendingRandomFactor = 1`,
`translateX = 50 + 10 sin 1 ≠ 50`. -/
theorem scenario_translateX_ne_fifty :
    (evaluate pScenarioDrift 250).translateX ≠ 50 := by
  have hsin : 0 < Real.sin 1 :=
    Real.sin_pos_of_pos_of_lt_pi one_pos (by linarith [Real.pi_gt_three])
  show ascendingX pScenarioDrift 250 + descendingX pScenarioDrift 250 ≠ 50
  norm_num [pScenarioDrift, pScenario, ascendingX, ascendingT, ascendingPercent,
    ascendingTime, easeInOutCubic, descendingX, descendingTime,
    descendingRotateAngle, max_def, min_def]
  intro hcontra
  nlinarith [hsin, hcontra]

/-- C3 (amended): in the fixed scenario (ascend 500, hover 200, descend
2000, no delay, startX = startY = 0, ascendingXOffset = 100,
ascendingYTarget = -50) and with the descending drift pinned by
`descendingRandomFactor = 0`, evaluation at `t = 250` gives
`translateX = 100 * easeInOutCubic(1/2) = 50` and `opacity = 2/5`. -/
theorem scenario_at_midpoint :
    (evaluate pScenario 250).translateX = 100 * easeInOutCubic ((1:ℝ)/2) ∧
    (evaluate pScenario 250).translateX = 50 ∧
    easeInOutCubic ((1:ℝ)/2) = 1/2 ∧
    (evaluate pScenario 250).opacity = (1/2 - 3/10) / (1/2) ∧
    (evaluate pScenario 250).opacity = 2/5 := by
  have hE : easeInOutCubic ((1:ℝ)/2) = 1/2 := by
    unfold easeInOutCubic
    norm_num
  have hX : (evaluate pScenario 250).translateX = 50 := by
    show ascendingX pScenario 250 + descendingX pScenario 250 = 50
    norm_num [pScenario, ascendingX, ascendingT, ascendingPercent, ascendingTime,
      easeInOutCubic, descendingX, descendingTime, descendingRotateAngle,
      max_def, min_def, Real.sin_zero]
  have hOp : (evaluate pScenario 250).opacity = 2/5 := by
    show ascendingOpacity pScenario 250 * descendingOpacity pScenario 250 = 2/5
    norm_num [pScenario, ascendingOpacity, descendingOpacity, ascendingPercent,
      ascendingTime, descendingPercent, descendingTime, fastInterpolate,
      max_def, min_def]
  refine ⟨by rw [hX, hE]; norm_num, hX, hE, by rw [hOp]; norm_num, hOp⟩

end ConfettiBench
